import Mathlib

/-!
Shallow embedding of the ALMAFE-AMBDeviceLibrary protocol/device core
(AMBConnection, FEMCDevice, CCADevice, LODevice) and proofs checking the
natural-language specification against it.

Conventions of the embedding:
* Python numbers are modelled as `Nat`, `Int` or `Rat` (`float` values as
  exact rationals; the claims checked here are control-flow and ordering
  properties, not bit-level floating point).
* A Python expression that raises an uncaught exception (for example
  comparing `None` with a number, `round(None, 4)`, or dividing by zero)
  is modelled as an `Except.error` result carrying a `PyErr`.
* Transport absence (a monitor timeout) is `Option.none`, exactly as the
  source's `unpack...` helpers signal it.
* Stateful device methods are modelled in a state monad whose state records
  the per-monitor-point read counters (the device readings are an
  adversarial environment, a function of the read index) and the trace of
  commands sent on the bus.
-/


/-- Python `int(x)` truncation toward zero of an exact rational. -/
def pyInt (q : ℚ) : ℤ := q.num.tdiv q.den

/-- Python `round(x)` to an integer: round half to even (banker's rounding),
as the built-in `round` does on the idealized decimal value. -/
def pyRoundInt (q : ℚ) : ℤ :=
  let f : ℤ := ⌊q⌋
  let r : ℚ := q - f
  if r < 1/2 then f
  else if 1/2 < r then f + 1
  else if f % 2 = 0 then f else f + 1

/-- Python `round(x, n)`: round at `n` decimal digits, half to even. -/
def pyRound (q : ℚ) (n : ℕ) : ℚ :=
  (pyRoundInt (q * (10 ^ n : ℕ))) / ((10 ^ n : ℕ) : ℚ)

/-- Python exceptions that the embedded code can raise. -/
inductive PyErr where
  | typeError       -- e.g. `None >= 3.0`, `round(None, 4)`, `None + 1`
  | zeroDivision    -- e.g. slope through two samples with equal tunes
  deriving DecidableEq, Repr

/-! ## Message codec (AMBConnection.py, AMBConnectionNican.py) -/

namespace AMBConn

/-- AMBConnection.ARBITRATION_ID (the base / broadcast arbitration id). -/
def ARBITRATION_ID : ℕ := 0x20000000

/-- AMBConnection.rcaToArbId (AMBConnection.py line 128):
`0x40000 * (nodeAddr + 1) + self.ARBITRATION_ID + rca`. -/
def rcaToArbId (nodeAddr rca : ℕ) : ℕ :=
  0x40000 * (nodeAddr + 1) + ARBITRATION_ID + rca

/-- AMBConnectionNican.rcaToArbId (AMBConnectionNican.py line 137):
`((nodeAddr + 1) << 18) + RCA` — note: no ARBITRATION_ID base term. -/
def nicanRcaToArbId (nodeAddr rca : ℕ) : ℕ :=
  (nodeAddr + 1) * 2 ^ 18 + rca

/-- AMBConnection.arbIdToNodeRCA (AMBConnection.py lines 131-134).
Python `/` is true division, so `nodeAddr` is a float (here an exact
rational), and the `rca` line uses the constant `0x4000` as written in the
source (where `rcaToArbId` uses `0x40000`). -/
def arbIdToNodeRCA (arbId : ℚ) : ℚ × ℚ :=
  let nodeAddr : ℚ := (arbId - ARBITRATION_ID) / 0x40000 - 1
  let rca : ℚ := arbId - ARBITRATION_ID - 0x4000 * (nodeAddr + 1)
  (nodeAddr, rca)

end AMBConn

namespace FEMC

/-- One call made on the shared connection (the Bus I/O the module device
actually performs).  `runSeq` records the RCAs handed to
`conn.runSequence`. -/
inductive ConnOp where
  | monitorOp (nodeAddr : ℕ) (rca : ℤ)
  | commandOp (nodeAddr : ℕ) (rca : ℤ)
  | runSeqOp (nodeAddr : ℕ) (rcas : List ℤ)
  deriving DecidableEq, Repr

/-- A batch element (AMBMessage).  Modelled from the spec: the AMBMessage
class lives in AMBConnectionItf.py whose body is not present under src/;
§3 of the spec gives `{rca: u32, data: bytes (empty means monitor request),
timestamp: u64}`.  The payload is kept abstract (`Option` of a value):
`none` is an empty payload (monitor request). -/
structure AMBMessage where
  RCA : ℤ
  data : Option ℚ
  timestamp : ℕ := 0
  deriving DecidableEq, Repr

/-- The module-device state the claims depend on: the FEMC port and whether
`__initSession` ever succeeded (`self.initialized`). -/
structure DevState where
  femcPort : ℤ
  sessionActive : Bool     -- self.initialized
  deriving DecidableEq, Repr

/-- FEMCDevice.femcPortOffset: `(femcPort - 1) << 12`. -/
def femcPortOffset (femcPort : ℤ) : ℤ := (femcPort - 1) * 2 ^ 12

/-- The connection is an oracle for monitor responses; commands always
"succeed" at the transport (fire and forget, `command` returns True). -/
structure Conn where
  nodeAddr : ℕ
  monitorResp : ℤ → Option ℚ    -- response payload by RCA, none = timeout

/-- FEMCDevice.__devMonitor: gated on `self.initialized`; when the session
is not active it returns None without touching the connection.  The second
component is the Bus I/O trace of the call. -/
def devMonitor (conn : Conn) (dev : DevState) (rca : ℤ) :
    Option ℚ × List ConnOp :=
  if dev.sessionActive then
    (conn.monitorResp rca, [ConnOp.monitorOp conn.nodeAddr rca])
  else
    (none, [])

/-- FEMCDevice.__devCommand: gated on `self.initialized`; when the session
is not active it returns False without touching the connection. -/
def devCommand (conn : Conn) (dev : DevState) (rca : ℤ) (_data : ℚ) :
    Bool × List ConnOp :=
  if dev.sessionActive then
    (true, [ConnOp.commandOp conn.nodeAddr rca])
  else
    (false, [])

/-- FEMCDevice.monitor: adds the port offset, then `__devMonitor`. -/
def femcMonitor (conn : Conn) (dev : DevState) (rca : ℤ) :
    Option ℚ × List ConnOp :=
  devMonitor conn dev (rca + femcPortOffset dev.femcPort)

/-- FEMCDevice.command: adds the port offset, then `__devCommand`. -/
def femcCommand (conn : Conn) (dev : DevState) (rca : ℤ) (data : ℚ) :
    Bool × List ConnOp :=
  devCommand conn dev (rca + femcPortOffset dev.femcPort) data

/-- FEMCDevice.runSequence (FEMCDevice.py lines 170-173): mutates each
message in place, `msg.RCA += femcPortOffset(femcPort)`, then forwards the
whole (mutated) list to `conn.runSequence`.  There is no
`self.initialized` gate.  The returned list is the same (mutated) list, so
a repeated call on the returned list adds the offset again. -/
def femcRunSequence (conn : Conn) (dev : DevState) (seq : List AMBMessage) :
    List AMBMessage × List ConnOp :=
  let seq' := seq.map (fun m => AMBMessage.mk
    (m.RCA + femcPortOffset dev.femcPort) m.data m.timestamp)
  -- conn.runSequence fills monitor responses in place and returns the list:
  let result := seq'.map (fun m =>
    match m.data with
    | some d => AMBMessage.mk m.RCA (some d) m.timestamp
    | none => AMBMessage.mk m.RCA (conn.monitorResp m.RCA) m.timestamp)
  (result, [ConnOp.runSeqOp conn.nodeAddr (seq'.map (·.RCA))])

end FEMC

namespace CCA

def CMD_OFFSET : ℤ := 0x10000

def POL1_OFFSET : ℤ := 0x0400

def DEVICE2_OFFSET : ℤ := 0x0080

def SIS_VOLTAGE : ℤ := 0x0008

def SIS_CURRENT : ℤ := 0x0010

/-- CCADevice.hasSIS: `band >= 3`. -/
def hasSIS (band : ℕ) : Bool := 3 ≤ band

/-- CCADevice.hasSIS2: `band in (3, 4, 5, 6, 7, 8)`. -/
def hasSIS2 (band : ℕ) : Bool :=
  band = 3 ∨ band = 4 ∨ band = 5 ∨ band = 6 ∨ band = 7 ∨ band = 8

/-- CCADevice.__checkPolAndDevice: coerce pol into 0..1 and device into
1..2; force device 1 for bands without a second SIS. -/
def checkPolAndDevice (band : ℕ) (pol device : ℤ) : ℤ × ℤ :=
  let pol := if pol < 0 then 0 else if 1 < pol then 1 else pol
  let device := if device < 1 then 1 else if 2 < device then 2 else device
  let device := if ¬ hasSIS2 band then 1 else device
  (pol, device)

/-- CCADevice.__subsysOffset: `pol*POL1_OFFSET + (device-1)*DEVICE2_OFFSET`. -/
def subsysOffset (pol device : ℤ) : ℤ :=
  pol * POL1_OFFSET + (device - 1) * DEVICE2_OFFSET

/-- IVCurve line 314: the offset passed to the inner loop already includes
the FEMC port offset (it is added here, once). -/
def ivSubsysOffsetWithPort (band : ℕ) (port pol sis : ℤ) : ℤ :=
  let ps := checkPolAndDevice band pol sis
  subsysOffset ps.1 ps.2 + FEMC.femcPortOffset port

/-- IVCurve line 323: the pre-sweep probe `self.monitor(SIS_VOLTAGE +
subsysOffset)` goes through FEMCDevice.monitor, which adds the port offset
again on top of the port offset already contained in `subsysOffset`. -/
def ivProbeWireRca (band : ℕ) (port pol sis : ℤ) : ℤ :=
  (SIS_VOLTAGE + ivSubsysOffsetWithPort band port pol sis)
    + FEMC.femcPortOffset port

/-- __IVCurveInnerLoop line 363: the sweep-to-first-point
`self.command(CMD_OFFSET + SIS_VOLTAGE + subsysOffset, ...)` also goes
through FEMCDevice.command, adding the port offset a second time. -/
def ivFirstPointWireRca (band : ℕ) (port pol sis : ℤ) : ℤ :=
  (CMD_OFFSET + SIS_VOLTAGE + ivSubsysOffsetWithPort band port pol sis)
    + FEMC.femcPortOffset port

/-- One sweep point: the three batch messages appended per iteration of
__IVCurveInnerLoop (set voltage / read voltage / read current), with the
set message's packFloat payload kept as the exact rational `vjSet`. -/
structure IVPoint where
  setRca : ℤ
  monVRca : ℤ
  monIRca : ℤ
  vjSet : ℚ
  deriving DecidableEq, Repr

/-- CCADevice.__IVCurveInnerLoop's while loop (lines 366-390), building one
triple of messages per point: append the triple for the current `VjSet`,
then `VjSet += VjStep`, and stop once the incremented value passes `Vj2`
(`<=` for a negative step, `>=` for a positive one).  `fuel` bounds the
number of iterations of the source's unbounded while loop; `none` means
the loop would still be running after `fuel` iterations. -/
def ivCurveInnerLoop (fuel : ℕ) (subsysOffset : ℤ) (vjSet vj2 vjStep : ℚ) :
    Option (List IVPoint) :=
  match fuel with
  | 0 => none
  | fuel + 1 =>
    let pt : IVPoint :=
      ⟨CMD_OFFSET + SIS_VOLTAGE + subsysOffset,
       SIS_VOLTAGE + subsysOffset,
       SIS_CURRENT + subsysOffset,
       vjSet⟩
    let next := vjSet + vjStep
    if (if vjStep < 0 then next ≤ vj2 else vj2 ≤ next) then
      some [pt]
    else
      (ivCurveInnerLoop fuel subsysOffset next vj2 vjStep).map (pt :: ·)

/-- The set voltages of a built message sequence, as read back by the
merge step (`unpackFloat(result[i*3].data)`: the command messages keep
their payload through runSequence, so this is the builder's value). -/
def vjSets (l : List IVPoint) : List ℚ := l.map (fun p => p.vjSet)

/-- CCADevice.IVCurve (lines 273-357) reduced to the merged set-voltage
column of its output.  Guards mirror the source: coerce pol/sis, band
checks, sort the bounds, take `abs(VjStep)`, reject a zero-width range and
a range narrower than one step; then run the negative-to-zero sub-sweep
and the positive-to-zero sub-sweep, and concatenate the first sub-sweep's
results with the REVERSED results of the second.  `none` covers the
source's `return None` paths (and fuel exhaustion of the inner loop). -/
def ivCurve (band : ℕ) (port pol sis : ℤ) (VjLow0 VjHigh0 VjStep0 : ℚ)
    (fuel : ℕ) : Option (List ℚ) :=
  if ¬ hasSIS band then none
  else if (checkPolAndDevice band pol sis).2 = 2 ∧ ¬ hasSIS2 band then none
  else
    let VjLow := if VjHigh0 < VjLow0 then VjHigh0 else VjLow0
    let VjHigh := if VjHigh0 < VjLow0 then VjLow0 else VjHigh0
    let VjStep := |VjStep0|
    let VjRange := VjHigh - VjLow
    if VjRange = 0 then none
    else if VjRange < VjStep then none
    else
      let subsys := ivSubsysOffsetWithPort band port pol sis
      let Vj1Negative := VjLow < 0
      let Vj2Positive := 0 < VjHigh
      let zeroCrossing := Vj1Negative ∧ Vj2Positive
      let result1 :=
        if Vj1Negative then
          ivCurveInnerLoop fuel subsys VjLow
            (if zeroCrossing then 0 else VjHigh) VjStep
        else some []
      let result2 :=
        if Vj2Positive then
          ivCurveInnerLoop fuel subsys VjHigh
            (if zeroCrossing then 0 else VjLow) (-VjStep)
        else some []
      match result1, result2 with
      | some r1, some r2 => some (vjSets r1 ++ (vjSets r2).reverse)
      | _, _ => none

end CCA

namespace LO

/-- Python abs() on an exact rational. -/
def pyAbs (q : ℚ) : ℚ := if q < 0 then -q else q

/-- Python abs() on an int. -/
def pyAbsZ (n : ℤ) : ℤ := if n < 0 then -n else n

/-- The raw responses to the five monitor requests getLockInfo issues, in
source order (each independently absent on a transport timeout). -/
structure RawLock where
  lockV : Option ℚ        -- PLL_LOCK_DETECT_VOLTAGE, unpackFloat
  unlockLatch : Option Bool -- PLL_UNLOCK_DETECT_LATCH, unpackBool
  refTP : Option ℚ        -- PLL_REF_TOTAL_POWER, unpackFloat
  ifTP : Option ℚ         -- PLL_IF_TOTAL_POWER, unpackFloat
  corrV : Option ℚ        -- PLL_CORRECTION_VOLTAGE, unpackFloat

/-- The device/transport environment: an adversarial stream of responses
for each monitor point, indexed by how many reads of that point have
happened so far.  (The LODevice methods are modelled with the FEMC session
active; the uninitialized no-op gate is the FEMC layer's concern.) -/
structure Env where
  lockRead : ℕ → RawLock
  ytoRead : ℕ → Option ℕ      -- YTO_COARSE_TUNE monitor, unpackU16
  tempRead : ℕ → Option ℚ     -- PLL_ASSEMBLY_TEMP monitor, unpackFloat
  nullRead : ℕ → Option Bool  -- PLL_NULL_LOOP_INTEGRATOR monitor, unpackBool
  sbRead : ℕ → Option ℕ       -- PLL_LOCK_SIDEBAND_SELECT monitor, unpackU8
  bwRead : ℕ → Option ℕ       -- PLL_LOOP_BANDWIDTH_SELECT monitor, unpackU8

/-- Per-device configuration (constructor arguments / setYTOLimits). -/
structure Cfg where
  band : ℕ
  ytoLowGHz : ℚ
  ytoHighGHz : ℚ

/-- Commands the LO device sends on the bus (the write trace). -/
inductive Cmd where
  | tune (v : ℤ)            -- YTO_COARSE_TUNE command (value after clamping)
  | nullIntegrator (b : Bool) -- PLL_NULL_LOOP_INTEGRATOR command
  | clearUnlock             -- PLL_CLEAR_UNLOCK_DETECT_LATCH command
  deriving DecidableEq, Repr

/-- Interpreter state: read counters per monitor point and the command
trace; `loopIters` counts iterations of the adjustPLL search loop. -/
structure St where
  nLock : ℕ
  nYto : ℕ
  nTemp : ℕ
  nNull : ℕ
  nSb : ℕ
  nBw : ℕ
  cmds : List Cmd
  loopIters : ℕ

def St.init : St := ⟨0, 0, 0, 0, 0, 0, [], 0⟩

/-- The effect monad: state plus Python exceptions.  An `Except.error`
models an uncaught Python exception escaping the method; the state (the
I/O already performed) is kept observable. -/
def M (α : Type) : Type := St → Except PyErr α × St

instance : Monad M where
  pure a := fun s => (Except.ok a, s)
  bind m f := fun s =>
    match m s with
    | (Except.ok a, s') => f a s'
    | (Except.error e, s') => (Except.error e, s')

/-- Raise a Python exception. -/
def pyRaise {α : Type} (e : PyErr) : M α := fun s => (Except.error e, s)

def readLock (env : Env) : M RawLock := fun s =>
  (Except.ok (env.lockRead s.nLock), { s with nLock := s.nLock + 1 })

def readYto (env : Env) : M (Option ℕ) := fun s =>
  (Except.ok (env.ytoRead s.nYto), { s with nYto := s.nYto + 1 })

def readTemp (env : Env) : M (Option ℚ) := fun s =>
  (Except.ok (env.tempRead s.nTemp), { s with nTemp := s.nTemp + 1 })

def readNull (env : Env) : M (Option Bool) := fun s =>
  (Except.ok (env.nullRead s.nNull), { s with nNull := s.nNull + 1 })

def readSb (env : Env) : M (Option ℕ) := fun s =>
  (Except.ok (env.sbRead s.nSb), { s with nSb := s.nSb + 1 })

def readBw (env : Env) : M (Option ℕ) := fun s =>
  (Except.ok (env.bwRead s.nBw), { s with nBw := s.nBw + 1 })

def emit (c : Cmd) : M Unit := fun s =>
  (Except.ok (), { s with cmds := s.cmds ++ [c] })

def tickLoop : M Unit := fun s =>
  (Except.ok (), { s with loopIters := s.loopIters + 1 })

/-- Python `unpackFloat(...) >= c`: comparing None with a float raises
TypeError. -/
def pyGe (x : Option ℚ) (c : ℚ) : M Bool :=
  match x with
  | none => pyRaise PyErr.typeError
  | some v => pure (if c ≤ v then true else false)

/-- Python `round(unpackFloat(...), n)`: round(None, n) raises TypeError. -/
def pyRoundM (x : Option ℚ) (n : ℕ) : M ℚ :=
  match x with
  | none => pyRaise PyErr.typeError
  | some v => pure (pyRound v n)

/-- LODevice.getLockInfo's result dictionary. -/
structure LockInfo where
  lockDetectBit : Bool
  unlockDetected : Bool
  refTP : ℚ
  IFTP : ℚ
  corrV : ℚ
  isLocked : Bool
  deriving DecidableEq, Repr

/-- LODevice.getLockInfo (lines 360-378): five monitor reads;
lockDetectBit compares the raw voltage with 3.0 (TypeError on absence),
the unlock latch goes through unpackBool (absence becomes False), the
three powers/voltages are rounded to 4 digits (TypeError on absence), and
isLocked = lockDetectBit and abs(refTP) >= 0.5 and abs(IFTP) >= 0.5. -/
def getLockInfo (env : Env) : M LockInfo := do
  let r ← readLock env
  let ld ← pyGe r.lockV 3
  let ul := r.unlockLatch.getD false
  let ref ← pyRoundM r.refTP 4
  let ifp ← pyRoundM r.ifTP 4
  let cv ← pyRoundM r.corrV 4
  pure ⟨ld, ul, ref, ifp, cv,
    ld && (if 1/2 ≤ pyAbs ref then true else false)
       && (if 1/2 ≤ pyAbs ifp then true else false)⟩

/-- LODevice.getYTO's result dictionary (courseTune stays None when the
monitor is absent: unpackU16 signals absence, nothing dereferences it
here). -/
structure YTO where
  courseTune : Option ℕ
  lowGHz : ℚ
  highGHz : ℚ

def getYTO (env : Env) (cfg : Cfg) : M YTO := do
  let ct ← readYto env
  pure ⟨ct, cfg.ytoLowGHz, cfg.ytoHighGHz⟩

/-- LODevice.getPLL's result dictionary. -/
structure PLLInfo where
  courseTune : Option ℕ
  temperature : ℚ
  nullPLL : Bool
  lock : LockInfo

/-- LODevice.getPLL (lines 348-358): courseTune, temperature (rounded to 3
digits, TypeError on absence), nullPLL (unpackBool), then getLockInfo. -/
def getPLL (env : Env) : M PLLInfo := do
  let ct ← readYto env
  let tRaw ← readTemp env
  let t ← pyRoundM tRaw 3
  let npRaw ← readNull env
  let np := npRaw.getD false
  let li ← getLockInfo env
  pure ⟨ct, t, np, li⟩

/-- LODevice.getPLLConfig's result dictionary (lockSB and loopBW stay None
on absence; the only use compares lockSB == 0, which is False for None,
not an error). -/
structure PLLCfgInfo where
  lockSB : Option ℕ
  loopBW : Option ℕ
  warmMult : ℚ
  coldMult : ℚ

/-- LODevice.WARM_MULTIPLIERS (the source dict; bands outside 1..10 would
raise KeyError and are outside the modelled domain). -/
def WARM_MULTIPLIERS : ℕ → ℚ
  | 1 => 1 | 2 => 4 | 3 => 6 | 4 => 3 | 5 => 6
  | 6 => 6 | 7 => 6 | 8 => 3 | 9 => 3 | 10 => 6
  | _ => 0

/-- LODevice.COLD_MULTIPLIERS (same caveat as WARM_MULTIPLIERS). -/
def COLD_MULTIPLIERS : ℕ → ℚ
  | 1 => 1 | 2 => 1 | 3 => 1 | 4 => 2 | 5 => 2
  | 6 => 3 | 7 => 3 | 8 => 6 | 9 => 9 | 10 => 9
  | _ => 0

def getPLLConfig (env : Env) (cfg : Cfg) : M PLLCfgInfo := do
  let sb ← readSb env
  let bw ← readBw env
  pure ⟨sb, bw, WARM_MULTIPLIERS cfg.band, COLD_MULTIPLIERS cfg.band⟩

/-- LODevice.setYTOCourseTune (lines 52-57): clamp into [0, 4095] and send
the YTO_COARSE_TUNE command (fire-and-forget, True at this layer). -/
def setYTOCourseTune (courseTune : ℤ) : M Bool := do
  let v := if courseTune < 0 then 0 else if 4095 < courseTune then 4095 else courseTune
  emit (Cmd.tune v)
  pure true

/-- setYTOCourseTune applied to a value that may be None (lockPLL's
one-point case passes the sample's courseTune straight in; Python
`None < 0` raises TypeError). -/
def setYTOCourseTuneOpt (courseTune : Option ℕ) : M Bool :=
  match courseTune with
  | none => pyRaise PyErr.typeError
  | some v => setYTOCourseTune v

/-- LODevice.__ytoFreqToCourse (lines 59-68): 0 when the YTO window is
unset/invalid, else clamp the frequency into the window and interpolate
onto 0..4095 with Python int() truncation. -/
def ytoFreqToCourse (cfg : Cfg) (ytoFreq : ℚ) : ℤ :=
  if ¬ (cfg.ytoLowGHz < cfg.ytoHighGHz) then 0
  else
    let f := if ytoFreq < cfg.ytoLowGHz then cfg.ytoLowGHz
             else if cfg.ytoHighGHz < ytoFreq then cfg.ytoHighGHz else ytoFreq
    pyInt ((f - cfg.ytoLowGHz) / (cfg.ytoHighGHz - cfg.ytoLowGHz) * 4095)

/-- The pure computation of LODevice.setLOFrequency (lines 37-50): the
`(wcaFreq, ytoFreq, ytoCourse)` triple, zeros on the divide-by-zero guard
or an invalid/zero course tune. -/
def setLOFrequencyCalc (cfg : Cfg) (freqGHz : ℚ) : ℚ × ℚ × ℤ :=
  if freqGHz = 0 then (0, 0, 0)
  else
    let wcaFreq := freqGHz / COLD_MULTIPLIERS cfg.band
    let ytoFreq := wcaFreq / WARM_MULTIPLIERS cfg.band
    let ytoCourse := ytoFreqToCourse cfg ytoFreq
    if ytoCourse = 0 then (0, 0, 0) else (wcaFreq, ytoFreq, ytoCourse)

/-- LODevice.setLOFrequency: compute the triple; on the failure paths
(zero frequency or course 0) return zeros without bus I/O, otherwise send
the course-tune command. -/
def setLOFrequency (cfg : Cfg) (freqGHz : ℚ) : M (ℚ × ℚ × ℤ) := do
  let r := setLOFrequencyCalc cfg freqGHz
  if r.2.2 = 0 then pure r
  else do
    let _ ← setYTOCourseTune r.2.2
    pure r

/-- How the adjustPLL search ended (each reason is observable in the
source as a distinct log message / branch). -/
inductive AdjExit where
  | notLockedAtStart   -- "cant start search because PLL is not locked"
  | badStartTune       -- "got tryCourseTune=..." (None or out of range)
  | window             -- correction voltage entered the 0.25 V window around the target
  | oscillation        -- "detected oscillation"
  | retriesExhausted   -- "too many retries"
  | rangeAbort         -- strayed more than maxDistance counts (error=True)
  deriving DecidableEq, Repr

/-- What adjustPLL returns: the Python return value (None or the final
correction voltage), the way the search ended, and the post-loop lock
snapshot when one was taken. -/
structure AdjOut where
  result : Option ℚ
  exitReason : AdjExit
  finalLock : Option LockInfo
  deriving DecidableEq, Repr

/-- The last pass of the adjustPLL while loop, reached when the retries
countdown is about to hit zero: the iteration still re-reads the lock
info and the YTO tune and still checks the acceptance window and the
oscillation pattern, but then `retries -= 1` makes `retries <= 0` hold
and the loop reports exhaustion. -/
def adjFinal (env : Env) (cfg : Cfg) (target : ℚ) (hist : List ℤ) :
    M AdjExit := do
  tickLoop
  let pll ← getLockInfo env
  let _yto ← getYTO env cfg
  if target - 1/4 ≤ pll.corrV ∧ pll.corrV ≤ target + 1/4 then
    pure AdjExit.window
  else if hist.length = 5 ∧ hist.get? 0 = hist.get? 2
        ∧ hist.get? 2 = hist.get? 4 then
    pure AdjExit.oscillation
  else
    pure AdjExit.retriesExhausted

/-- The while loop of LODevice.adjustPLL (lines 230-256).  `retries` is
the Python countdown variable (the loop body decrements it and stops at
<= 0); each iteration re-reads the lock info and the YTO tune, checks the
acceptance window, then the oscillation pattern over the 5-element
control history, then steps the try tune by one count toward reducing the
error, aborting if it strays more than 50 counts from the current YTO
reading.  TypeError is raised if the YTO monitor was absent (None
arithmetic), exactly as in the source. -/
def adjLoop (env : Env) (cfg : Cfg) (target : ℚ) :
    ℕ → ℤ → List ℤ → M AdjExit
  | 0, _tryTune, hist => adjFinal env cfg target hist
  | 1, _tryTune, hist => adjFinal env cfg target hist
  | r + 2, tryTune, hist => do
    tickLoop
    let pll ← getLockInfo env
    let yto ← getYTO env cfg
    if target - 1/4 ≤ pll.corrV ∧ pll.corrV ≤ target + 1/4 then
      pure AdjExit.window
    else if hist.length = 5 ∧ hist.get? 0 = hist.get? 2
          ∧ hist.get? 2 = hist.get? 4 then
      pure AdjExit.oscillation
    else
      let e := pll.corrV - target
      let tryTune' := tryTune + (if 0 < e then 1 else -1)
      match yto.courseTune with
      | none => pyRaise PyErr.typeError
      | some ct =>
        let distance := pyAbsZ (tryTune' - (ct : ℤ))
        if 50 < distance then pure AdjExit.rangeAbort
        else do
          let _ ← if 0 ≤ tryTune' ∧ tryTune' ≤ 4095
            then setYTOCourseTune tryTune' else pure true
          let hist' := hist ++ [tryTune']
          let hist' := if 5 < hist'.length
            then hist'.drop (hist'.length - 5) else hist'
          adjLoop env cfg target (r + 1) tryTune' hist'

/-- LODevice.adjustPLL (lines 200-268): refuse to start when not locked
or when the starting tune is unusable; otherwise run the bounded search
(50 retries), then re-read the lock info; losing lock forces the failure
return (None), otherwise clear the unlock latch and return the final
correction voltage — unless the loop ended in the range abort
(error=True), which also returns None. -/
def adjustPLL (env : Env) (cfg : Cfg) (targetCV : ℚ) : M AdjOut := do
  let pll ← getLockInfo env
  let yto ← getYTO env cfg
  if ¬ pll.isLocked then
    pure ⟨none, AdjExit.notLockedAtStart, none⟩
  else
    match yto.courseTune with
    | none => pyRaise PyErr.typeError   -- Python: 0 <= None raises
    | some ct =>
      if 0 ≤ (ct : ℤ) ∧ (ct : ℤ) ≤ 4095 then do
        let _ ← setYTOCourseTune ct
        let exitr ← adjLoop env cfg targetCV 50 ct [(ct : ℤ)]
        let pllF ← getLockInfo env
        if ¬ pllF.isLocked then
          pure ⟨none, exitr, some pllF⟩          -- lost the lock: error
        else do
          emit Cmd.clearUnlock
          if exitr = AdjExit.rangeAbort then
            pure ⟨none, exitr, some pllF⟩        -- done False / error True
          else
            pure ⟨some pllF.corrV, exitr, some pllF⟩
      else
        pure ⟨none, AdjExit.badStartTune, none⟩

/-- A retained search sample in lockPLL: the rounded correction voltage
and the YTO course tune read back for that point. -/
structure Sample where
  corrV : ℚ
  courseTune : Option ℕ
  deriving DecidableEq, Repr

/-- The 9-point candidate loop of lockPLL (lines 95-131): for each
i in 0..8 try `ytoCourse + 5*(i-4)` (clamped), cycling the null-loop
integrator around the tune write, then sample getPLL/getYTO and retain
the sample when locked (with its courseTune overwritten by the getYTO
reading, as in the source). -/
def lockPointsBody (env : Env) (cfg : Cfg) (ytoCourse : ℤ)
    (acc : List Sample) (i : ℕ) : M (List Sample) := do
  let offset : ℤ := 5 * ((i : ℤ) - 4)
  let thisTune := ytoCourse + offset
  let thisTune := if 4095 < thisTune then 4095
    else if thisTune < 0 then 0 else thisTune
  emit (Cmd.nullIntegrator true)
  let _ ← setYTOCourseTune thisTune
  emit (Cmd.nullIntegrator false)
  let pll ← getPLL env
  let yto ← getYTO env cfg
  if pll.lock.isLocked then
    pure (acc ++ [Sample.mk pll.lock.corrV yto.courseTune])
  else
    pure acc

def lockPoints (env : Env) (cfg : Cfg) (ytoCourse : ℤ) : M (List Sample) :=
  (List.range 9).foldlM (lockPointsBody env cfg ytoCourse) []

/-- The resolution step of lockPLL (lines 139-190): nothing for no
samples; for one sample re-tune to it and zero the correction voltage via
adjustPLL; for two or more fit the line through the first and last
samples (TypeError if a sample's tune monitor was absent, ZeroDivisionError
if the tunes are equal), solve for the zero crossing when the slope is
steep enough, else take the midpoint, re-tune there, clear the unlock
latch and re-check. -/
def lockResolve (env : Env) (cfg : Cfg) : List Sample → M Unit
  | [] => pure ()
  | [one] => do
    let _ ← setYTOCourseTuneOpt one.courseTune
    let _ ← adjustPLL env cfg 0
    let _ ← getPLL env
    pure ()
  | first :: next :: rest => do
    let lastS := (next :: rest).getLast?.getD next   -- never the default
    let y1 := lastS.corrV
    let y0 := first.corrV
    match lastS.courseTune, first.courseTune with
    | some x1, some x0 =>
      if x1 = x0 then pyRaise PyErr.zeroDivision
      else
        let slope := (y1 - y0) / ((x1 : ℚ) - (x0 : ℚ))
        let tuneZero : ℤ :=
          if slope ≤ -(1/1000) then pyInt (-y0 / slope + (x0 : ℚ))
          else pyInt (((x0 : ℚ) + (x1 : ℚ)) / 2)
        let _ ← setYTOCourseTune tuneZero
        emit Cmd.clearUnlock
        let _ ← getPLL env
        pure ()
    | _, _ => pyRaise PyErr.typeError   -- None in the x1 - x0 subtraction

/-- LODevice.lockPLL (lines 70-198): tune to the coarse estimate; if
already locked, zero the correction voltage and re-check (early return on
success); otherwise run the 9-point search and the resolution step; in
all remaining paths take a final lock snapshot and return the
setLOFrequency triple on lock, zeros otherwise. -/
def lockPLL (env : Env) (cfg : Cfg) (freqLOGHz : ℚ) : M (ℚ × ℚ × ℤ) := do
  let r := setLOFrequencyCalc cfg freqLOGHz
  let _ ← setLOFrequency cfg freqLOGHz
  if r.1 = 0 then pure (0, 0, 0)
  else do
    let pll ← getLockInfo env
    if pll.isLocked then do
      let _ ← adjustPLL env cfg 0
      let pll2 ← getLockInfo env
      if pll2.isLocked then
        pure r
      else do
        let pllF ← getLockInfo env
        if pllF.isLocked then pure r else pure (0, 0, 0)
    else do
      let _pcfg ← getPLLConfig env cfg   -- lockSB only feeds a log message
      let samples ← lockPoints env cfg r.2.2
      lockResolve env cfg samples
      let pllF ← getLockInfo env
      if pllF.isLocked then pure r else pure (0, 0, 0)

end LO

/-- Concrete lock readings for the C8 witness: lock detect voltage 5 V,
reference power 0.6, IF power -0.6, correction voltage 0. -/
def env08 : LO.Env :=
  ⟨fun _ => ⟨some 5, some false, some (3/5), some (-(3/5)), some 0⟩,
   fun _ => some 2000, fun _ => some 0, fun _ => some false,
   fun _ => some 0, fun _ => some 0⟩

def info8 : LO.LockInfo := ⟨true, false, 3/5, -(3/5), 0, true⟩

/-- An environment in which every lock-info monitor times out (absence);
all other monitor points respond normally. -/
def envAbsent : LO.Env :=
  ⟨fun _ => ⟨none, none, none, none, none⟩,
   fun _ => some 2000, fun _ => some 0, fun _ => some false,
   fun _ => some 0, fun _ => some 0⟩

/-- Band-1 configuration with the YTO window 10..20 GHz. -/
def cfgB1 : LO.Cfg := ⟨1, 10, 20⟩

/-- Readings that make the adjustPLL search dither: the correction voltage
alternates between +1 and -1 on successive reads (never inside the 0.25 V
window around target 0), while the YTO tune reads back 2000; the PLL
reports locked throughout. -/
def envOsc : LO.Env :=
  ⟨fun n => ⟨some 5, some false, some 1, some 1,
    some (if n % 2 = 1 then 1 else -1)⟩,
   fun _ => some 2000, fun _ => some 0, fun _ => some false,
   fun _ => some 0, fun _ => some 0⟩

/-- Readings for the C5 run: not locked at the start, locked at search
points i=3 (correction voltage 2 V, tune reads back 2042) and i=5
(correction voltage 0 V, tune reads back 2052), locked again at the final
check; everything else present but unlocked. -/
def envC5 : LO.Env :=
  ⟨fun n =>
    if n = 4 then ⟨some 5, some false, some 1, some 1, some 2⟩
    else if n = 6 then ⟨some 5, some false, some 1, some 1, some 0⟩
    else if n = 11 then ⟨some 5, some false, some 1, some 1, some 0⟩
    else ⟨some 0, some false, some 1, some 1, some 0⟩,
   fun n => if n = 7 then some 2042 else if n = 11 then some 2052
    else some 2000,
   fun _ => some 0, fun _ => some false, fun _ => some 0, fun _ => some 0⟩

/-- The full command trace of the envC5 lockPLL run. -/
def c5cmds : List LO.Cmd :=
  [LO.Cmd.tune 2047,
   LO.Cmd.nullIntegrator true,
   LO.Cmd.tune 2027,
   LO.Cmd.nullIntegrator false,
   LO.Cmd.nullIntegrator true,
   LO.Cmd.tune 2032,
   LO.Cmd.nullIntegrator false,
   LO.Cmd.nullIntegrator true,
   LO.Cmd.tune 2037,
   LO.Cmd.nullIntegrator false,
   LO.Cmd.nullIntegrator true,
   LO.Cmd.tune 2042,
   LO.Cmd.nullIntegrator false,
   LO.Cmd.nullIntegrator true,
   LO.Cmd.tune 2047,
   LO.Cmd.nullIntegrator false,
   LO.Cmd.nullIntegrator true,
   LO.Cmd.tune 2052,
   LO.Cmd.nullIntegrator false,
   LO.Cmd.nullIntegrator true,
   LO.Cmd.tune 2057,
   LO.Cmd.nullIntegrator false,
   LO.Cmd.nullIntegrator true,
   LO.Cmd.tune 2062,
   LO.Cmd.nullIntegrator false,
   LO.Cmd.nullIntegrator true,
   LO.Cmd.tune 2067,
   LO.Cmd.nullIntegrator false,
   LO.Cmd.tune 2052,
   LO.Cmd.clearUnlock]

/-- The value of the last YTO_COARSE_TUNE command in a trace: where the
device was finally re-tuned to. -/
def lastTuneCmd (l : List LO.Cmd) : Option ℤ :=
  (l.filterMap (fun c => match c with
    | LO.Cmd.tune v => some v
    | _ => none)).getLast?

/-- A module device on FEMC port 2 (offset 0x1000) with an active
session, and a single command message at caller-visible RCA 0x8. -/
def devP2 : FEMC.DevState := FEMC.DevState.mk 2 true

def connX : FEMC.Conn := FEMC.Conn.mk 0x13 (fun _ => none)

def msg8 : FEMC.AMBMessage := FEMC.AMBMessage.mk 0x8 (some 1) 0



/-- C4: for every nodeAddr and rca, the arbitration id equals
`0x20000000 + (nodeAddr+1)*2^18 + rca` (true for AMBConnection.rcaToArbId),
but the inverse does NOT round-trip: the id of `(nodeAddr, rca) = (0, 0)` is
`0x20040000`, and the source's `arbIdToNodeRCA` maps it to `(0, 0x3C000)`,
not `(0, 0)` (a `0x4000` typo for `0x40000`, on top of float division); the
Nican backend's `rcaToArbId` also omits the `0x20000000` base entirely. -/
theorem C4_arbitration_id_bug :
    (∀ nodeAddr rca : ℕ,
      AMBConn.rcaToArbId nodeAddr rca = 0x20000000 + (nodeAddr + 1) * 2 ^ 18 + rca)
    ∧ AMBConn.rcaToArbId 0 0 = 0x20040000
    ∧ AMBConn.arbIdToNodeRCA 0x20040000 = (0, 0x3C000)
    ∧ ((0x3C000 : ℚ) ≠ 0)
    ∧ AMBConn.nicanRcaToArbId 0 0 ≠ 0x20000000 + (0 + 1) * 2 ^ 18 + 0 := by
  refine ⟨fun nodeAddr rca => ?_, by decide, ?_, by norm_num, by decide⟩
  · unfold AMBConn.rcaToArbId AMBConn.ARBITRATION_ID
    ring
  · unfold AMBConn.arbIdToNodeRCA AMBConn.ARBITRATION_ID
    norm_num [Prod.ext_iff]

/-- C7: while the module device's session is uninitialized, `command`
returns false and `monitor` returns None for every RCA, and neither
performs any Bus I/O (the connection trace is empty). -/
theorem C7_uninitialized_no_io (conn : FEMC.Conn) (dev : FEMC.DevState)
    (h : dev.sessionActive = false) (rca : ℤ) (data : ℚ) :
    FEMC.femcMonitor conn dev rca = (none, [])
    ∧ FEMC.femcCommand conn dev rca data = (false, []) := by
  unfold FEMC.femcMonitor FEMC.femcCommand FEMC.devMonitor FEMC.devCommand
  rw [h]
  simp

/-- Witness for C7 at a concrete uninitialized device and RCA. -/
theorem C7_uninitialized_no_io_witness :
    FEMC.femcMonitor (FEMC.Conn.mk 19 (fun _ => none)) (FEMC.DevState.mk 3 false) 0x800
        = (none, [])
    ∧ FEMC.femcCommand (FEMC.Conn.mk 19 (fun _ => none)) (FEMC.DevState.mk 3 false) 0x10800 1
        = (false, []) :=
  C7_uninitialized_no_io (FEMC.Conn.mk 19 (fun _ => none))
    (FEMC.DevState.mk 3 false) rfl 0x800 1

/-- C10: `runSequence` is not gated by the session state: even while the
module is uninitialized it adds the port offset to every message's RCA and
forwards the whole sequence to the connection (performing Bus I/O),
unlike `command` and `monitor`. -/
theorem C10_runSequence_not_gated (conn : FEMC.Conn) (dev : FEMC.DevState)
    (_h : dev.sessionActive = false) (seq : List FEMC.AMBMessage) :
    (FEMC.femcRunSequence conn dev seq).2
      = [FEMC.ConnOp.runSeqOp conn.nodeAddr
          (seq.map (fun m => m.RCA + FEMC.femcPortOffset dev.femcPort))]
    ∧ (FEMC.femcRunSequence conn dev seq).2 ≠ [] := by
  unfold FEMC.femcRunSequence
  refine ⟨?_, by simp⟩
  simp

/-- Witness for C10: a concrete uninitialized device still produces Bus
I/O from `runSequence`, with the port offset applied to the message RCA. -/
theorem C10_runSequence_not_gated_witness :
    (FEMC.femcRunSequence (FEMC.Conn.mk 19 (fun _ => none))
        (FEMC.DevState.mk 3 false) [FEMC.AMBMessage.mk 0x800 none 0]).2
      = [FEMC.ConnOp.runSeqOp 19 [0x800 + 0x2000]]
    ∧ (FEMC.femcRunSequence (FEMC.Conn.mk 19 (fun _ => none))
        (FEMC.DevState.mk 3 false) [FEMC.AMBMessage.mk 0x800 none 0]).2 ≠ [] := by
  have h := C10_runSequence_not_gated (FEMC.Conn.mk 19 (fun _ => none))
    (FEMC.DevState.mk 3 false) rfl [FEMC.AMBMessage.mk 0x800 none 0]
  refine ⟨?_, h.2⟩
  rw [h.1]
  decide

/-! ## Cold-cartridge device (CCADevice.py): subsystem offsets, IV-curve sweep -/

namespace LO

theorem bind_apply {α β : Type} (m : M α) (f : α → M β) (s : St) :
    (m >>= f) s = match m s with
      | (Except.ok a, s') => f a s'
      | (Except.error e, s') => (Except.error e, s') := rfl

theorem pure_apply {α : Type} (a : α) (s : St) :
    (pure a : M α) s = (Except.ok a, s) := rfl

theorem pyAbs_eq_abs (q : ℚ) : pyAbs q = |q| := by
  unfold pyAbs
  rcases lt_or_le q 0 with h | h
  · rw [if_pos h, abs_of_neg h]
  · rw [if_neg (not_lt.mpr h), abs_of_nonneg h]

/-- Closed form of one getLockInfo call: the five reads happen in order;
any absent float monitor raises TypeError; the read counter advances
either way. -/
theorem getLockInfo_eval (env : Env) (s : St) :
    getLockInfo env s =
      ((match (env.lockRead s.nLock).lockV, (env.lockRead s.nLock).refTP,
              (env.lockRead s.nLock).ifTP, (env.lockRead s.nLock).corrV with
        | some lv, some rf, some ifp, some cv =>
          Except.ok (LockInfo.mk (if 3 ≤ lv then true else false)
            ((env.lockRead s.nLock).unlockLatch.getD false)
            (pyRound rf 4) (pyRound ifp 4) (pyRound cv 4)
            ((if 3 ≤ lv then true else false)
              && (if 1/2 ≤ pyAbs (pyRound rf 4) then true else false)
              && (if 1/2 ≤ pyAbs (pyRound ifp 4) then true else false)))
        | _, _, _, _ => Except.error PyErr.typeError),
       { s with nLock := s.nLock + 1 }) := by
  rcases hR : env.lockRead s.nLock with ⟨lv, ul, rf, ifp, cv⟩
  cases lv <;> cases rf <;> cases ifp <;> cases cv <;>
    simp [getLockInfo, bind_apply, pure_apply, readLock, pyGe, pyRoundM,
      pyRaise, hR]

end LO

/-- C8: whenever a lock-state query succeeds, the derived isLocked flag is
true exactly when lockDetect is true and both total-power fields have
absolute value at least 0.5. -/
theorem C8_isLocked_iff (env : LO.Env) (s : LO.St) (info : LO.LockInfo)
    (h : ((LO.getLockInfo env) s).1 = Except.ok info) :
    (info.isLocked = true ↔
      info.lockDetectBit = true ∧ 1/2 ≤ |info.refTP| ∧ 1/2 ≤ |info.IFTP|) := by
  rw [LO.getLockInfo_eval] at h
  rcases hl : (env.lockRead s.nLock).lockV with _ | lv <;> rw [hl] at h
  · simp at h
  rcases hr : (env.lockRead s.nLock).refTP with _ | rf <;> rw [hr] at h
  · simp at h
  rcases hi : (env.lockRead s.nLock).ifTP with _ | ifp <;> rw [hi] at h
  · simp at h
  rcases hc : (env.lockRead s.nLock).corrV with _ | cv <;> rw [hc] at h
  · simp at h
  simp only [Except.ok.injEq] at h
  subst h
  simp only [← LO.pyAbs_eq_abs]
  constructor
  · intro hTrue
    simp only [Bool.and_eq_true, if_true_left] at hTrue ⊢
    constructor
    · exact hTrue.1.1
    constructor
    · by_contra hcon
      rw [if_neg hcon] at hTrue
      exact Bool.false_ne_true hTrue.1.2
    · by_contra hcon
      rw [if_neg hcon] at hTrue
      exact Bool.false_ne_true hTrue.2
  · intro hAnd
    simp only [hAnd.1, if_pos hAnd.2.1, if_pos hAnd.2.2, Bool.and_self]

/-- Witness for C8 at the spec's example values (0.6 / -0.6, locked). -/
theorem C8_isLocked_iff_witness :
    ((LO.getLockInfo env08) LO.St.init).1 = Except.ok info8
    ∧ (info8.isLocked = true ↔
      info8.lockDetectBit = true ∧ 1/2 ≤ |info8.refTP| ∧ 1/2 ≤ |info8.IFTP|) := by
  have hev : ((LO.getLockInfo env08) LO.St.init).1 = Except.ok info8 := by
    rw [LO.getLockInfo_eval]
    norm_num [env08, info8, LO.pyAbs, pyRound, pyRoundInt]
  exact ⟨hev, C8_isLocked_iff env08 LO.St.init info8 hev⟩

namespace LO

theorem getLockInfo_state (env : Env) (s : St) :
    ((getLockInfo env) s).2 = { s with nLock := s.nLock + 1 } := by
  rw [getLockInfo_eval]

theorem getYTO_apply (env : Env) (cfg : Cfg) (s : St) :
    getYTO env cfg s =
      (Except.ok ⟨env.ytoRead s.nYto, cfg.ytoLowGHz, cfg.ytoHighGHz⟩,
       { s with nYto := s.nYto + 1 }) := rfl

theorem setYTOCourseTune_apply (v : ℤ) (s : St) :
    setYTOCourseTune v s =
      (Except.ok true,
       { s with cmds := s.cmds ++
          [Cmd.tune (if v < 0 then 0 else if 4095 < v then 4095 else v)] }) := rfl

theorem tickLoop_apply (s : St) :
    tickLoop s = (Except.ok (), { s with loopIters := s.loopIters + 1 }) := rfl

theorem emit_apply (c : Cmd) (s : St) :
    emit c s = (Except.ok (), { s with cmds := s.cmds ++ [c] }) := rfl

/-- The final loop pass performs exactly one iteration tick. -/
theorem getLockInfo_loopIters (env : Env) (s : St) :
    ((getLockInfo env) s).2.loopIters = s.loopIters := by
  rw [getLockInfo_eval]

theorem adjFinal_loopIters (env : Env) (cfg : Cfg) (target : ℚ)
    (hist : List ℤ) (s : St) :
    ((adjFinal env cfg target hist) s).2.loopIters = s.loopIters + 1 := by
  unfold adjFinal
  simp only [bind_apply, tickLoop_apply]
  rcases h1 : getLockInfo env { s with loopIters := s.loopIters + 1 }
    with ⟨res1, s1⟩
  have hs1 : s1.loopIters = s.loopIters + 1 := by
    have h2 := getLockInfo_loopIters env { s with loopIters := s.loopIters + 1 }
    rw [h1] at h2
    exact h2
  cases res1 with
  | error e => exact hs1
  | ok pll =>
    simp only [getYTO_apply, bind_apply]
    split
    · rw [pure_apply]
      exact hs1
    · split
      · rw [pure_apply]
        exact hs1
      · rw [pure_apply]
        exact hs1

/-- The adjustPLL search loop performs at most `max retries 1` iterations:
every pass either exits or decrements the countdown. -/
theorem adjLoop_loopIters (env : Env) (cfg : Cfg) (target : ℚ) :
    ∀ retries tryTune hist s,
      ((adjLoop env cfg target retries tryTune hist) s).2.loopIters
        ≤ s.loopIters + max retries 1 := by
  intro retries
  induction retries using Nat.strong_induction_on with
  | _ retries ih =>
    intro tryTune hist s
    match retries with
    | 0 =>
      rw [adjLoop, adjFinal_loopIters]
      omega
    | 1 =>
      rw [adjLoop, adjFinal_loopIters]
      omega
    | r + 2 =>
      rw [adjLoop]
      simp only [bind_apply, tickLoop_apply]
      rcases h1 : getLockInfo env { s with loopIters := s.loopIters + 1 }
        with ⟨res1, s1⟩
      have hs1 : s1.loopIters = s.loopIters + 1 := by
        have h2 := getLockInfo_loopIters env { s with loopIters := s.loopIters + 1 }
        rw [h1] at h2
        exact h2
      have hbase : s1.loopIters ≤ s.loopIters + max (r + 2) 1 := by
        omega
      cases res1 with
      | error e => exact hbase
      | ok pll =>
        simp only [getYTO_apply, bind_apply]
        split
        · rw [pure_apply]
          exact hbase
        · split
          · rw [pure_apply]
            exact hbase
          · rcases hyc : (env.ytoRead s1.nYto) with _ | ct
            · simp only [pyRaise]
              exact hbase
            · simp only []
              split
              · split
                · rw [pure_apply]
                  exact hbase
                · split
                  · rw [bind_apply, setYTOCourseTune_apply]
                    refine le_trans (ih (r + 1) (by omega) _ _ _) ?_
                    simp only [hs1]
                    omega
                  · rw [bind_apply, pure_apply]
                    refine le_trans (ih (r + 1) (by omega) _ _ _) ?_
                    simp only [hs1]
                    omega
              · split
                · rw [pure_apply]
                  exact hbase
                · split
                  · rw [bind_apply, setYTOCourseTune_apply]
                    refine le_trans (ih (r + 1) (by omega) _ _ _) ?_
                    simp only [hs1]
                    omega
                  · rw [bind_apply, pure_apply]
                    refine le_trans (ih (r + 1) (by omega) _ _ _) ?_
                    simp only [hs1]
                    omega

end LO

/-- C6: adjustPLL always terminates (it is a total function of the
reading environment by construction), and for every environment —
including adversarial reading sequences — its search loop runs at most 50
iterations: the retries countdown caps the loop regardless of the window,
oscillation, and distance checks. -/
theorem C6_adjustPLL_iteration_bound (env : LO.Env) (cfg : LO.Cfg)
    (target : ℚ) (s : LO.St) :
    ((LO.adjustPLL env cfg target) s).2.loopIters ≤ s.loopIters + 50 := by
  have htail : ∀ (tryT : ℤ) (h0 : List ℤ) (s' : LO.St),
      (((LO.adjLoop env cfg target 50 tryT h0) >>= fun exitr => do
          let pllF ← LO.getLockInfo env
          if ¬ pllF.isLocked then
            pure (LO.AdjOut.mk none exitr (some pllF))
          else do
            LO.emit LO.Cmd.clearUnlock
            if exitr = LO.AdjExit.rangeAbort then
              pure (LO.AdjOut.mk none exitr (some pllF))
            else
              pure (LO.AdjOut.mk (some pllF.corrV) exitr (some pllF))) s').2.loopIters
        ≤ s'.loopIters + 50 := by
    intro tryT h0 s'
    rw [LO.bind_apply]
    rcases h3 : LO.adjLoop env cfg target 50 tryT h0 s' with ⟨res3, s4⟩
    have hs4 : s4.loopIters ≤ s'.loopIters + 50 := by
      have h5 := LO.adjLoop_loopIters env cfg target 50 tryT h0 s'
      rw [h3] at h5
      simpa using h5
    cases res3 with
    | error e => exact hs4
    | ok exitr =>
      simp only [LO.bind_apply]
      rcases h6 : LO.getLockInfo env s4 with ⟨res6, s6⟩
      have hs6 : s6.loopIters = s4.loopIters := by
        have h7 := LO.getLockInfo_loopIters env s4
        rw [h6] at h7
        exact h7
      cases res6 with
      | error e =>
        show s6.loopIters ≤ s'.loopIters + 50
        omega
      | ok pllF =>
        dsimp only
        split
        · rw [LO.pure_apply]
          show s6.loopIters ≤ s'.loopIters + 50
          omega
        · rw [LO.bind_apply, LO.emit_apply]
          dsimp only
          split
          · rw [LO.pure_apply]
            show s6.loopIters ≤ s'.loopIters + 50
            omega
          · rw [LO.pure_apply]
            show s6.loopIters ≤ s'.loopIters + 50
            omega
  unfold LO.adjustPLL
  simp only [LO.bind_apply]
  rcases h1 : LO.getLockInfo env s with ⟨res1, s1⟩
  have hs1 : s1.loopIters = s.loopIters := by
    have h2 := LO.getLockInfo_loopIters env s
    rw [h1] at h2
    exact h2
  cases res1 with
  | error e =>
    show s1.loopIters ≤ s.loopIters + 50
    omega
  | ok pll =>
    simp only [LO.getYTO_apply, LO.bind_apply]
    split
    · rw [LO.pure_apply]
      show s1.loopIters ≤ s.loopIters + 50
      omega
    · rcases hyc : (env.ytoRead s1.nYto) with _ | ct
      · simp only [LO.pyRaise]
        show s1.loopIters ≤ s.loopIters + 50
        omega
      · simp only []
        split
        · rw [LO.bind_apply, LO.setYTOCourseTune_apply]
          refine le_trans (htail (ct : ℤ) [(ct : ℤ)] _) ?_
          show s1.loopIters + 50 ≤ s.loopIters + 50
          omega
        · rw [LO.pure_apply]
          show s1.loopIters ≤ s.loopIters + 50
          omega

/-- Truncation toward zero, characterized by floor/ceil. -/
theorem pyInt_eq (q : ℚ) : pyInt q = if 0 ≤ q then ⌊q⌋ else ⌈q⌉ := by
  unfold pyInt
  rcases le_or_lt 0 q with h | h
  · rw [if_pos h, Rat.floor_def]
    exact Int.tdiv_eq_ediv (Rat.num_nonneg.mpr h) (Int.natCast_nonneg q.den)
  · rw [if_neg (not_le.mpr h)]
    have hnum : 0 ≤ -q.num := by
      have h0 : ¬ 0 ≤ q.num := fun hc =>
        absurd (Rat.num_nonneg.mp hc) (not_le.mpr h)
      omega
    have h1 : q.num.tdiv q.den = -((-q.num).tdiv q.den) := by
      rw [Int.neg_tdiv, neg_neg]
    have h2 : (-q.num).tdiv (q.den : ℤ) = -q.num / (q.den : ℤ) :=
      Int.tdiv_eq_ediv hnum (Int.natCast_nonneg q.den)
    have h3 : ⌊-q⌋ = -q.num / (q.den : ℤ) := by
      rw [Rat.floor_def, Rat.num_neg_eq_neg_num, Rat.neg_den]
    rw [h1, h2, ← h3, ← Int.ceil_neg, neg_neg]

/-- C2 (failing input): a monitor absence inside the search is NOT treated
as "not locked"/zero: the None from unpackFloat flows into `>= 3.0` /
`round(..., 4)` and the resulting TypeError propagates out of both
adjustPLL and lockPLL as an uncaught exception. -/
theorem C2_monitor_absence_fatal :
    ((LO.adjustPLL envAbsent cfgB1 0) LO.St.init).1
        = Except.error PyErr.typeError
    ∧ ((LO.lockPLL envAbsent cfgB1 15) LO.St.init).1
        = Except.error PyErr.typeError := by
  constructor
  · unfold LO.adjustPLL
    simp [LO.bind_apply, LO.getLockInfo_eval, envAbsent]
  · unfold LO.lockPLL
    simp [LO.bind_apply, LO.getLockInfo_eval, envAbsent, LO.setLOFrequency,
      LO.setLOFrequencyCalc, LO.ytoFreqToCourse, cfgB1, LO.COLD_MULTIPLIERS,
      LO.WARM_MULTIPLIERS, LO.setYTOCourseTune_apply, pyInt_eq,
      LO.pure_apply, LO.emit_apply]
    norm_num [LO.bind_apply, LO.getLockInfo_eval, envAbsent,
      LO.setYTOCourseTune_apply, LO.pure_apply, LO.emit_apply]

namespace LO

/-- One unfolding of the adjustPLL while loop for any countdown value that
is not yet exhausted (numeral-friendly form for concrete evaluation). -/
theorem adjLoop_unfold (env : Env) (cfg : Cfg) (target : ℚ) (retries : ℕ)
    (h2 : 2 ≤ retries) (tryTune : ℤ) (hist : List ℤ) :
    adjLoop env cfg target retries tryTune hist = (do
      tickLoop
      let pll ← getLockInfo env
      let yto ← getYTO env cfg
      if target - 1/4 ≤ pll.corrV ∧ pll.corrV ≤ target + 1/4 then
        pure AdjExit.window
      else if hist.length = 5 ∧ hist.get? 0 = hist.get? 2
            ∧ hist.get? 2 = hist.get? 4 then
        pure AdjExit.oscillation
      else
        let e := pll.corrV - target
        let tryTune' := tryTune + (if 0 < e then 1 else -1)
        match yto.courseTune with
        | none => pyRaise PyErr.typeError
        | some ct =>
          let distance := pyAbsZ (tryTune' - (ct : ℤ))
          if 50 < distance then pure AdjExit.rangeAbort
          else do
            let _ ← if 0 ≤ tryTune' ∧ tryTune' ≤ 4095
              then setYTOCourseTune tryTune' else pure true
            let hist' := hist ++ [tryTune']
            let hist' := if 5 < hist'.length
              then hist'.drop (hist'.length - 5) else hist'
            adjLoop env cfg target (retries - 1) tryTune' hist') := by
  obtain ⟨r, rfl⟩ : ∃ r, retries = r + 2 := ⟨retries - 2, by omega⟩
  rw [adjLoop]
  rfl

end LO

/-- One lock-info read against envOsc: locked, with the correction
voltage alternating by read parity. -/
theorem envOsc_ytoRead (n : ℕ) : envOsc.ytoRead n = some 2000 := rfl

theorem getLockInfo_envOsc (s : LO.St) :
    LO.getLockInfo envOsc s =
      (Except.ok (LO.LockInfo.mk true false 1 1
        (if s.nLock % 2 = 1 then 1 else -1) true),
       { s with nLock := s.nLock + 1 }) := by
  rw [LO.getLockInfo_eval]
  by_cases h : s.nLock % 2 = 1 <;>
    simp only [envOsc] <;>
    norm_num [h, pyRound, pyRoundInt, LO.pyAbs]

set_option maxHeartbeats 1000000 in
/-- Full evaluation of adjustPLL against the dithering envOsc readings:
five loop iterations, oscillation detected, final lock check still
locked, so the Python return value is the final correction voltage. -/
theorem adjustPLL_envOsc_eval :
    ((LO.adjustPLL envOsc cfgB1 0) LO.St.init).1
      = Except.ok (LO.AdjOut.mk (some (-1)) LO.AdjExit.oscillation
          (some (LO.LockInfo.mk true false 1 1 (-1) true))) := by
  have h1 : LO.adjLoop envOsc cfgB1 0 50 2000 [2000]
        (LO.St.mk 1 1 0 0 0 0 [LO.Cmd.tune 2000] 0)
      = LO.adjLoop envOsc cfgB1 0 49 2001 [2000, 2001]
        (LO.St.mk 2 2 0 0 0 0 [LO.Cmd.tune 2000, LO.Cmd.tune 2001] 1) := by
    rw [LO.adjLoop_unfold envOsc cfgB1 0 50 (by norm_num)]
    norm_num [LO.bind_apply, LO.pure_apply, getLockInfo_envOsc, envOsc_ytoRead,
      LO.getYTO_apply, LO.setYTOCourseTune_apply, LO.emit_apply,
      LO.tickLoop_apply, LO.pyAbsZ]
  have h2 : LO.adjLoop envOsc cfgB1 0 49 2001 [2000, 2001]
        (LO.St.mk 2 2 0 0 0 0 [LO.Cmd.tune 2000, LO.Cmd.tune 2001] 1)
      = LO.adjLoop envOsc cfgB1 0 48 2000 [2000, 2001, 2000]
        (LO.St.mk 3 3 0 0 0 0
          [LO.Cmd.tune 2000, LO.Cmd.tune 2001, LO.Cmd.tune 2000] 2) := by
    rw [LO.adjLoop_unfold envOsc cfgB1 0 49 (by norm_num)]
    norm_num [LO.bind_apply, LO.pure_apply, getLockInfo_envOsc, envOsc_ytoRead,
      LO.getYTO_apply, LO.setYTOCourseTune_apply, LO.emit_apply,
      LO.tickLoop_apply, LO.pyAbsZ]
  have h3 : LO.adjLoop envOsc cfgB1 0 48 2000 [2000, 2001, 2000]
        (LO.St.mk 3 3 0 0 0 0
          [LO.Cmd.tune 2000, LO.Cmd.tune 2001, LO.Cmd.tune 2000] 2)
      = LO.adjLoop envOsc cfgB1 0 47 2001 [2000, 2001, 2000, 2001]
        (LO.St.mk 4 4 0 0 0 0
          [LO.Cmd.tune 2000, LO.Cmd.tune 2001, LO.Cmd.tune 2000,
           LO.Cmd.tune 2001] 3) := by
    rw [LO.adjLoop_unfold envOsc cfgB1 0 48 (by norm_num)]
    norm_num [LO.bind_apply, LO.pure_apply, getLockInfo_envOsc, envOsc_ytoRead,
      LO.getYTO_apply, LO.setYTOCourseTune_apply, LO.emit_apply,
      LO.tickLoop_apply, LO.pyAbsZ]
  have h4 : LO.adjLoop envOsc cfgB1 0 47 2001 [2000, 2001, 2000, 2001]
        (LO.St.mk 4 4 0 0 0 0
          [LO.Cmd.tune 2000, LO.Cmd.tune 2001, LO.Cmd.tune 2000,
           LO.Cmd.tune 2001] 3)
      = LO.adjLoop envOsc cfgB1 0 46 2000 [2000, 2001, 2000, 2001, 2000]
        (LO.St.mk 5 5 0 0 0 0
          [LO.Cmd.tune 2000, LO.Cmd.tune 2001, LO.Cmd.tune 2000,
           LO.Cmd.tune 2001, LO.Cmd.tune 2000] 4) := by
    rw [LO.adjLoop_unfold envOsc cfgB1 0 47 (by norm_num)]
    norm_num [LO.bind_apply, LO.pure_apply, getLockInfo_envOsc, envOsc_ytoRead,
      LO.getYTO_apply, LO.setYTOCourseTune_apply, LO.emit_apply,
      LO.tickLoop_apply, LO.pyAbsZ]
  have h5 : LO.adjLoop envOsc cfgB1 0 46 2000 [2000, 2001, 2000, 2001, 2000]
        (LO.St.mk 5 5 0 0 0 0
          [LO.Cmd.tune 2000, LO.Cmd.tune 2001, LO.Cmd.tune 2000,
           LO.Cmd.tune 2001, LO.Cmd.tune 2000] 4)
      = (Except.ok LO.AdjExit.oscillation,
        LO.St.mk 6 6 0 0 0 0
          [LO.Cmd.tune 2000, LO.Cmd.tune 2001, LO.Cmd.tune 2000,
           LO.Cmd.tune 2001, LO.Cmd.tune 2000] 5) := by
    rw [LO.adjLoop_unfold envOsc cfgB1 0 46 (by norm_num)]
    norm_num [LO.bind_apply, LO.pure_apply, getLockInfo_envOsc, envOsc_ytoRead,
      LO.getYTO_apply, LO.setYTOCourseTune_apply, LO.emit_apply,
      LO.tickLoop_apply, LO.pyAbsZ]
  unfold LO.adjustPLL
  norm_num [LO.bind_apply, LO.pure_apply, getLockInfo_envOsc, envOsc_ytoRead,
    LO.getYTO_apply, LO.setYTOCourseTune_apply, LO.emit_apply,
    LO.tickLoop_apply, LO.St.init, h1, h2, h3, h4, h5]
  rw [if_neg (by decide), LO.pure_apply]

/-- C1 (counterexample): with the envOsc readings the search ends via the
oscillation detector, yet adjustPLL returns the final correction voltage
(`some (-1)`) — the same success-shaped value a window exit returns — not
a failure result: only out-of-range and lock-loss produce None. -/
theorem C1_counterexample :
    ((LO.adjustPLL envOsc cfgB1 0) LO.St.init).1
      = Except.ok (LO.AdjOut.mk (some (-1)) LO.AdjExit.oscillation
          (some (LO.LockInfo.mk true false 1 1 (-1) true)))
    ∧ (some (-1) : Option ℚ) ≠ none :=
  ⟨adjustPLL_envOsc_eval, by simp⟩

/-- C1 (amended): for every call in which the search ends by retry
exhaustion or by the oscillation detector, adjustPLL terminates, and its
return value is decided by the final lock check alone: None (the failure
value) exactly when the lock was lost, otherwise the final correction
voltage — which is indistinguishable from a successful window exit.  Only
the out-of-range abort and lock loss yield the failure value. -/
theorem C1_amended (env : LO.Env) (cfg : LO.Cfg) (t : ℚ) (s : LO.St)
    (out : LO.AdjOut)
    (h : ((LO.adjustPLL env cfg t) s).1 = Except.ok out)
    (hr : out.exitReason = LO.AdjExit.oscillation
        ∨ out.exitReason = LO.AdjExit.retriesExhausted) :
    ∃ li : LO.LockInfo, out.finalLock = some li
      ∧ out.result = (if li.isLocked then some li.corrV else none) := by
  unfold LO.adjustPLL at h
  simp only [LO.bind_apply] at h
  rcases h1 : LO.getLockInfo env s with ⟨res1, s1⟩
  rw [h1] at h
  cases res1 with
  | error e => simp at h
  | ok pll =>
    simp only [LO.getYTO_apply, LO.bind_apply] at h
    split at h
    · rw [LO.pure_apply] at h
      simp only [Except.ok.injEq] at h
      subst h
      rcases hr with hr | hr <;> simp at hr
    · rcases hyc : env.ytoRead s1.nYto with _ | ct <;> rw [hyc] at h
      · simp [LO.pyRaise] at h
      · dsimp only at h
        split at h
        · rw [LO.bind_apply, LO.setYTOCourseTune_apply] at h
          dsimp only at h
          simp only [LO.bind_apply] at h
          rcases h3 : LO.adjLoop env cfg t 50 (ct : ℤ) [(ct : ℤ)]
              (LO.St.mk s1.nLock (s1.nYto + 1) s1.nTemp s1.nNull s1.nSb s1.nBw
                (s1.cmds ++ [LO.Cmd.tune (if (ct : ℤ) < 0 then 0
                  else if 4095 < (ct : ℤ) then 4095 else (ct : ℤ))])
                s1.loopIters)
            with ⟨res3, s4⟩
          rw [h3] at h
          cases res3 with
          | error e => simp at h
          | ok exitr =>
            simp only [LO.bind_apply] at h
            rcases h6 : LO.getLockInfo env s4 with ⟨res6, s6⟩
            rw [h6] at h
            cases res6 with
            | error e => simp at h
            | ok pllF =>
              dsimp only at h
              split at h
              · rw [LO.pure_apply] at h
                simp only [Except.ok.injEq] at h
                subst h
                refine ⟨pllF, rfl, ?_⟩
                rename_i hlost
                rw [if_neg hlost]
              · rw [LO.bind_apply, LO.emit_apply] at h
                dsimp only at h
                split at h
                · rw [LO.pure_apply] at h
                  simp only [Except.ok.injEq] at h
                  subst h
                  rename_i hra
                  rcases hr with hr | hr <;>
                    · simp only [] at hr
                      rw [hra] at hr
                      exact absurd hr (by decide)
                · rw [LO.pure_apply] at h
                  simp only [Except.ok.injEq] at h
                  subst h
                  refine ⟨pllF, rfl, ?_⟩
                  rename_i hstill _
                  rw [if_pos (by revert hstill; simp)]
        · rw [LO.pure_apply] at h
          simp only [Except.ok.injEq] at h
          subst h
          rcases hr with hr | hr <;> simp at hr

/-- Witness for the amended C1 at the concrete envOsc run: the search
ended by oscillation and the result equals the final correction voltage
because the lock was still held. -/
theorem C1_amended_witness :
    ∃ li : LO.LockInfo,
      (LO.AdjOut.mk (some (-1)) LO.AdjExit.oscillation
        (some (LO.LockInfo.mk true false 1 1 (-1) true))).finalLock = some li
      ∧ (LO.AdjOut.mk (some (-1)) LO.AdjExit.oscillation
          (some (LO.LockInfo.mk true false 1 1 (-1) true))).result
        = (if li.isLocked then some li.corrV else none) :=
  C1_amended envOsc cfgB1 0 LO.St.init
    (LO.AdjOut.mk (some (-1)) LO.AdjExit.oscillation
      (some (LO.LockInfo.mk true false 1 1 (-1) true)))
    adjustPLL_envOsc_eval (Or.inl rfl)

theorem pyRound_0_4 : pyRound 0 4 = 0 := by norm_num [pyRound, pyRoundInt]

theorem pyRound_1_4 : pyRound 1 4 = 1 := by norm_num [pyRound, pyRoundInt]

theorem pyRound_2_4 : pyRound 2 4 = 2 := by norm_num [pyRound, pyRoundInt]

theorem pyRound_0_3 : pyRound 0 3 = 0 := by norm_num [pyRound, pyRoundInt]

theorem lockStep0 (acc : List LO.Sample) (L : List LO.Cmd) :
    LO.lockPointsBody envC5 cfgB1 2047 acc 0 (LO.St.mk 1 0 0 0 1 1 L 0)
      = (Except.ok acc, LO.St.mk 2 2 1 1 1 1
          (L ++ [LO.Cmd.nullIntegrator true, LO.Cmd.tune 2027,
                 LO.Cmd.nullIntegrator false]) 0) := by
  norm_num [LO.lockPointsBody, LO.bind_apply, LO.pure_apply, LO.emit_apply,
    LO.setYTOCourseTune_apply, LO.getPLL, LO.getLockInfo_eval, LO.getYTO_apply,
    LO.readYto, LO.readTemp, LO.readNull, LO.pyRoundM, envC5, cfgB1,
    pyRound_0_4, pyRound_1_4, pyRound_2_4, pyRound_0_3, LO.pyAbs,
    List.append_assoc]

theorem lockStep1 (acc : List LO.Sample) (L : List LO.Cmd) :
    LO.lockPointsBody envC5 cfgB1 2047 acc 1 (LO.St.mk 2 2 1 1 1 1 L 0)
      = (Except.ok acc, LO.St.mk 3 4 2 2 1 1
          (L ++ [LO.Cmd.nullIntegrator true, LO.Cmd.tune 2032,
                 LO.Cmd.nullIntegrator false]) 0) := by
  norm_num [LO.lockPointsBody, LO.bind_apply, LO.pure_apply, LO.emit_apply,
    LO.setYTOCourseTune_apply, LO.getPLL, LO.getLockInfo_eval, LO.getYTO_apply,
    LO.readYto, LO.readTemp, LO.readNull, LO.pyRoundM, envC5, cfgB1,
    pyRound_0_4, pyRound_1_4, pyRound_2_4, pyRound_0_3, LO.pyAbs,
    List.append_assoc]

theorem lockStep2 (acc : List LO.Sample) (L : List LO.Cmd) :
    LO.lockPointsBody envC5 cfgB1 2047 acc 2 (LO.St.mk 3 4 2 2 1 1 L 0)
      = (Except.ok acc, LO.St.mk 4 6 3 3 1 1
          (L ++ [LO.Cmd.nullIntegrator true, LO.Cmd.tune 2037,
                 LO.Cmd.nullIntegrator false]) 0) := by
  norm_num [LO.lockPointsBody, LO.bind_apply, LO.pure_apply, LO.emit_apply,
    LO.setYTOCourseTune_apply, LO.getPLL, LO.getLockInfo_eval, LO.getYTO_apply,
    LO.readYto, LO.readTemp, LO.readNull, LO.pyRoundM, envC5, cfgB1,
    pyRound_0_4, pyRound_1_4, pyRound_2_4, pyRound_0_3, LO.pyAbs,
    List.append_assoc]

theorem lockStep3 (acc : List LO.Sample) (L : List LO.Cmd) :
    LO.lockPointsBody envC5 cfgB1 2047 acc 3 (LO.St.mk 4 6 3 3 1 1 L 0)
      = (Except.ok (acc ++ [LO.Sample.mk 2 (some 2042)]), LO.St.mk 5 8 4 4 1 1
          (L ++ [LO.Cmd.nullIntegrator true, LO.Cmd.tune 2042,
                 LO.Cmd.nullIntegrator false]) 0) := by
  norm_num [LO.lockPointsBody, LO.bind_apply, LO.pure_apply, LO.emit_apply,
    LO.setYTOCourseTune_apply, LO.getPLL, LO.getLockInfo_eval, LO.getYTO_apply,
    LO.readYto, LO.readTemp, LO.readNull, LO.pyRoundM, envC5, cfgB1,
    pyRound_0_4, pyRound_1_4, pyRound_2_4, pyRound_0_3, LO.pyAbs,
    List.append_assoc]

theorem lockStep4 (acc : List LO.Sample) (L : List LO.Cmd) :
    LO.lockPointsBody envC5 cfgB1 2047 acc 4 (LO.St.mk 5 8 4 4 1 1 L 0)
      = (Except.ok acc, LO.St.mk 6 10 5 5 1 1
          (L ++ [LO.Cmd.nullIntegrator true, LO.Cmd.tune 2047,
                 LO.Cmd.nullIntegrator false]) 0) := by
  norm_num [LO.lockPointsBody, LO.bind_apply, LO.pure_apply, LO.emit_apply,
    LO.setYTOCourseTune_apply, LO.getPLL, LO.getLockInfo_eval, LO.getYTO_apply,
    LO.readYto, LO.readTemp, LO.readNull, LO.pyRoundM, envC5, cfgB1,
    pyRound_0_4, pyRound_1_4, pyRound_2_4, pyRound_0_3, LO.pyAbs,
    List.append_assoc]

theorem lockStep5 (acc : List LO.Sample) (L : List LO.Cmd) :
    LO.lockPointsBody envC5 cfgB1 2047 acc 5 (LO.St.mk 6 10 5 5 1 1 L 0)
      = (Except.ok (acc ++ [LO.Sample.mk 0 (some 2052)]), LO.St.mk 7 12 6 6 1 1
          (L ++ [LO.Cmd.nullIntegrator true, LO.Cmd.tune 2052,
                 LO.Cmd.nullIntegrator false]) 0) := by
  norm_num [LO.lockPointsBody, LO.bind_apply, LO.pure_apply, LO.emit_apply,
    LO.setYTOCourseTune_apply, LO.getPLL, LO.getLockInfo_eval, LO.getYTO_apply,
    LO.readYto, LO.readTemp, LO.readNull, LO.pyRoundM, envC5, cfgB1,
    pyRound_0_4, pyRound_1_4, pyRound_2_4, pyRound_0_3, LO.pyAbs,
    List.append_assoc]

theorem lockStep6 (acc : List LO.Sample) (L : List LO.Cmd) :
    LO.lockPointsBody envC5 cfgB1 2047 acc 6 (LO.St.mk 7 12 6 6 1 1 L 0)
      = (Except.ok acc, LO.St.mk 8 14 7 7 1 1
          (L ++ [LO.Cmd.nullIntegrator true, LO.Cmd.tune 2057,
                 LO.Cmd.nullIntegrator false]) 0) := by
  norm_num [LO.lockPointsBody, LO.bind_apply, LO.pure_apply, LO.emit_apply,
    LO.setYTOCourseTune_apply, LO.getPLL, LO.getLockInfo_eval, LO.getYTO_apply,
    LO.readYto, LO.readTemp, LO.readNull, LO.pyRoundM, envC5, cfgB1,
    pyRound_0_4, pyRound_1_4, pyRound_2_4, pyRound_0_3, LO.pyAbs,
    List.append_assoc]

theorem lockStep7 (acc : List LO.Sample) (L : List LO.Cmd) :
    LO.lockPointsBody envC5 cfgB1 2047 acc 7 (LO.St.mk 8 14 7 7 1 1 L 0)
      = (Except.ok acc, LO.St.mk 9 16 8 8 1 1
          (L ++ [LO.Cmd.nullIntegrator true, LO.Cmd.tune 2062,
                 LO.Cmd.nullIntegrator false]) 0) := by
  norm_num [LO.lockPointsBody, LO.bind_apply, LO.pure_apply, LO.emit_apply,
    LO.setYTOCourseTune_apply, LO.getPLL, LO.getLockInfo_eval, LO.getYTO_apply,
    LO.readYto, LO.readTemp, LO.readNull, LO.pyRoundM, envC5, cfgB1,
    pyRound_0_4, pyRound_1_4, pyRound_2_4, pyRound_0_3, LO.pyAbs,
    List.append_assoc]

theorem lockStep8 (acc : List LO.Sample) (L : List LO.Cmd) :
    LO.lockPointsBody envC5 cfgB1 2047 acc 8 (LO.St.mk 9 16 8 8 1 1 L 0)
      = (Except.ok acc, LO.St.mk 10 18 9 9 1 1
          (L ++ [LO.Cmd.nullIntegrator true, LO.Cmd.tune 2067,
                 LO.Cmd.nullIntegrator false]) 0) := by
  norm_num [LO.lockPointsBody, LO.bind_apply, LO.pure_apply, LO.emit_apply,
    LO.setYTOCourseTune_apply, LO.getPLL, LO.getLockInfo_eval, LO.getYTO_apply,
    LO.readYto, LO.readTemp, LO.readNull, LO.pyRoundM, envC5, cfgB1,
    pyRound_0_4, pyRound_1_4, pyRound_2_4, pyRound_0_3, LO.pyAbs,
    List.append_assoc]

/-- Full evaluation of the 9-point search loop against envC5: samples
retained at i=3 and i=5 only. -/
theorem lockPoints_envC5 (L : List LO.Cmd) :
    LO.lockPoints envC5 cfgB1 2047 (LO.St.mk 1 0 0 0 1 1 L 0)
      = (Except.ok [LO.Sample.mk 2 (some 2042), LO.Sample.mk 0 (some 2052)],
         LO.St.mk 10 18 9 9 1 1
          (L ++ [LO.Cmd.nullIntegrator true,
         LO.Cmd.tune 2027,
         LO.Cmd.nullIntegrator false,
         LO.Cmd.nullIntegrator true,
         LO.Cmd.tune 2032,
         LO.Cmd.nullIntegrator false,
         LO.Cmd.nullIntegrator true,
         LO.Cmd.tune 2037,
         LO.Cmd.nullIntegrator false,
         LO.Cmd.nullIntegrator true,
         LO.Cmd.tune 2042,
         LO.Cmd.nullIntegrator false,
         LO.Cmd.nullIntegrator true,
         LO.Cmd.tune 2047,
         LO.Cmd.nullIntegrator false,
         LO.Cmd.nullIntegrator true,
         LO.Cmd.tune 2052,
         LO.Cmd.nullIntegrator false,
         LO.Cmd.nullIntegrator true,
         LO.Cmd.tune 2057,
         LO.Cmd.nullIntegrator false,
         LO.Cmd.nullIntegrator true,
         LO.Cmd.tune 2062,
         LO.Cmd.nullIntegrator false,
         LO.Cmd.nullIntegrator true,
         LO.Cmd.tune 2067,
         LO.Cmd.nullIntegrator false]) 0) := by
  unfold LO.lockPoints
  rw [show List.range 9 = [0, 1, 2, 3, 4, 5, 6, 7, 8] from rfl]
  simp only [List.foldlM_cons, List.foldlM_nil, LO.bind_apply]
  rw [lockStep0]
  dsimp only
  rw [lockStep1]
  dsimp only
  rw [lockStep2]
  dsimp only
  rw [lockStep3]
  dsimp only
  rw [lockStep4]
  dsimp only
  rw [lockStep5]
  dsimp only
  rw [lockStep6]
  dsimp only
  rw [lockStep7]
  dsimp only
  rw [lockStep8]
  dsimp only
  rw [LO.pure_apply]
  simp [List.append_assoc]

theorem setLOFrequencyCalc_cfgB1 :
    LO.setLOFrequencyCalc cfgB1 15 = (15, 15, 2047) := by
  norm_num [LO.setLOFrequencyCalc, LO.ytoFreqToCourse, cfgB1,
    LO.COLD_MULTIPLIERS, LO.WARM_MULTIPLIERS, pyInt_eq]

/-- The resolution step on the two envC5 samples: slope -1/5, zero
crossing at tune 2052, so the device is re-tuned to 2052. -/
theorem lockResolve_envC5 (L : List LO.Cmd) :
    LO.lockResolve envC5 cfgB1
        [LO.Sample.mk 2 (some 2042), LO.Sample.mk 0 (some 2052)]
        (LO.St.mk 10 18 9 9 1 1 L 0)
      = (Except.ok (), LO.St.mk 11 19 10 10 1 1
          (L ++ [LO.Cmd.tune 2052, LO.Cmd.clearUnlock]) 0) := by
  unfold LO.lockResolve
  norm_num [LO.bind_apply, LO.pure_apply, LO.emit_apply,
    LO.setYTOCourseTune_apply, LO.getPLL, LO.getLockInfo_eval, LO.getYTO_apply,
    LO.readYto, LO.readTemp, LO.readNull, LO.pyRoundM, envC5, cfgB1,
    pyRound_0_4, pyRound_1_4, pyRound_2_4, pyRound_0_3, LO.pyAbs, pyInt_eq,
    List.append_assoc]

theorem setLOFrequency_cfgB1_eval :
    (LO.setLOFrequency cfgB1 15) LO.St.init
      = (Except.ok (15, 15, 2047),
         LO.St.mk 0 0 0 0 0 0 [LO.Cmd.tune 2047] 0) := by
  unfold LO.setLOFrequency
  rw [setLOFrequencyCalc_cfgB1]
  norm_num [LO.bind_apply, LO.pure_apply, LO.setYTOCourseTune_apply,
    LO.St.init]

theorem getLockInfo_envC5_first :
    LO.getLockInfo envC5 (LO.St.mk 0 0 0 0 0 0 [LO.Cmd.tune 2047] 0)
      = (Except.ok (LO.LockInfo.mk false false 1 1 0 false),
         LO.St.mk 1 0 0 0 0 0 [LO.Cmd.tune 2047] 0) := by
  rw [LO.getLockInfo_eval]
  norm_num [envC5, pyRound_0_4, pyRound_1_4, LO.pyAbs]

theorem getPLLConfig_envC5_eval (L : List LO.Cmd) :
    LO.getPLLConfig envC5 cfgB1 (LO.St.mk 1 0 0 0 0 0 L 0)
      = (Except.ok (LO.PLLCfgInfo.mk (some 0) (some 0) 1 1),
         LO.St.mk 1 0 0 0 1 1 L 0) := rfl

theorem getLockInfo_envC5_final (L : List LO.Cmd) :
    LO.getLockInfo envC5 (LO.St.mk 11 19 10 10 1 1 L 0)
      = (Except.ok (LO.LockInfo.mk true false 1 1 0 true),
         LO.St.mk 12 19 10 10 1 1 L 0) := by
  rw [LO.getLockInfo_eval]
  norm_num [envC5, pyRound_0_4, pyRound_1_4, LO.pyAbs]

/-- Full evaluation of lockPLL against envC5: the run succeeds, the
device is last re-tuned to 2052 (the zero crossing), but the returned
triple carries the initial coarse estimate 2047. -/
theorem lockPLL_envC5_eval :
    (LO.lockPLL envC5 cfgB1 15) LO.St.init
      = (Except.ok (15, 15, 2047), LO.St.mk 12 19 10 10 1 1 c5cmds 0) := by
  unfold LO.lockPLL
  rw [setLOFrequencyCalc_cfgB1]
  simp only [LO.bind_apply]
  rw [setLOFrequency_cfgB1_eval]
  dsimp only
  rw [if_neg (by norm_num)]
  simp only [LO.bind_apply]
  rw [getLockInfo_envC5_first]
  dsimp only
  rw [if_neg (by decide)]
  simp only [LO.bind_apply]
  rw [getPLLConfig_envC5_eval]
  dsimp only
  rw [lockPoints_envC5]
  dsimp only
  rw [lockResolve_envC5]
  dsimp only
  rw [getLockInfo_envC5_final]
  dsimp only
  rw [if_pos rfl, LO.pure_apply]
  simp [c5cmds, List.append_assoc]

/-- C5 (counterexample): the envC5 lockPLL run succeeds and its
resolution step re-tunes the device to the zero crossing 2052 (the last
course-tune command on the wire), yet the returned triple carries the
initial coarse estimate 2047, not the resolved tune. -/
theorem C5_counterexample :
    ((LO.lockPLL envC5 cfgB1 15) LO.St.init).1 = Except.ok (15, 15, 2047)
    ∧ lastTuneCmd ((LO.lockPLL envC5 cfgB1 15) LO.St.init).2.cmds = some 2052
    ∧ ((2047 : ℤ) ≠ 2052) := by
  refine ⟨by rw [lockPLL_envC5_eval], ?_, by decide⟩
  rw [lockPLL_envC5_eval]
  decide

/-- C5 (amended): a successful lockPLL returns exactly the
setLOFrequency triple computed up front — the initial coarse estimate —
never the re-tuned value from the resolution step (which only reaches
the device as a command); a failed run returns the zero triple. -/
theorem C5_amended (env : LO.Env) (cfg : LO.Cfg) (f : ℚ) (s : LO.St)
    (t : ℚ × ℚ × ℤ)
    (h : ((LO.lockPLL env cfg f) s).1 = Except.ok t) :
    t = (0, 0, 0) ∨ t = LO.setLOFrequencyCalc cfg f := by
  unfold LO.lockPLL at h
  simp only [LO.bind_apply, LO.pure_apply] at h
  repeat'
    first
    | exact Or.inl h
    | exact Or.inl h.symm
    | exact Or.inr h
    | exact Or.inr h.symm
    | exact Or.inl (by simpa using h.symm)
    | exact Or.inr (by simpa using h.symm)
    | (rw [LO.pure_apply] at h
       simp only [Except.ok.injEq] at h
       first
       | exact Or.inl h.symm
       | exact Or.inr h.symm)
    | (simp only [LO.bind_apply, LO.pure_apply] at h; split at h)
    | split at h

/-- Witness for the amended C5 at the concrete envC5 run: the successful
return value is the setLOFrequency triple (15, 15, 2047). -/
theorem C5_amended_witness :
    ((15 : ℚ), (15 : ℚ), (2047 : ℤ)) = (0, 0, 0)
    ∨ ((15 : ℚ), (15 : ℚ), (2047 : ℤ)) = LO.setLOFrequencyCalc cfgB1 15 :=
  C5_amended envC5 cfgB1 15 LO.St.init (15, 15, 2047)
    (by rw [lockPLL_envC5_eval])

/-- C3 (failing input): the port offset IS re-applied.  Calling
runSequence a second time on the returned (mutated in place) list sends
RCA 0x8 + 2*0x1000 instead of 0x8 + 0x1000; and inside IVCurve the
pre-sweep probe monitor and the sweep-to-first-point command add the
port offset on top of a subsystem offset that already contains it
(band 6, port 6, pol 0, sis 1: wire RCA 0x8 + 2*0x5000). -/
theorem C3_offset_double_application :
    ((FEMC.femcRunSequence connX devP2
        (FEMC.femcRunSequence connX devP2 [msg8]).1).1.map (fun m => m.RCA))
      = [0x8 + 0x1000 + 0x1000]
    ∧ ((0x8 + 0x1000 + 0x1000 : ℤ) ≠ 0x8 + 0x1000)
    ∧ CCA.ivProbeWireRca 6 6 0 1 = 0x8 + 0x5000 + 0x5000
    ∧ ((0x8 + 0x5000 + 0x5000 : ℤ) ≠ 0x8 + 0x5000)
    ∧ CCA.ivFirstPointWireRca 6 6 0 1 = 0x10008 + 0x5000 + 0x5000 := by
  refine ⟨?_, by decide, by decide, by decide, by decide⟩
  decide

namespace CCA

theorem vjSets_cons (p : IVPoint) (l : List IVPoint) :
    vjSets (p :: l) = p.vjSet :: vjSets l := rfl

/-- Positive-step inner sweep: the set voltages start at the start value,
increase monotonically, and (when started below the endpoint) stay
strictly below the endpoint. -/
theorem innerLoop_pos (so : ℤ) (st : ℚ) (hst : 0 < st) :
    ∀ (f : ℕ) (v1 v2 : ℚ) (l : List IVPoint),
      ivCurveInnerLoop f so v1 v2 st = some l →
      (vjSets l).head? = some v1
      ∧ (vjSets l).Chain' (· ≤ ·)
      ∧ (v1 < v2 → ∀ x ∈ vjSets l, x < v2) := by
  intro f
  induction f with
  | zero =>
    intro v1 v2 l h
    simp [ivCurveInnerLoop] at h
  | succ f ih =>
    intro v1 v2 l h
    rw [ivCurveInnerLoop] at h
    have hcond : (if st < 0 then v1 + st ≤ v2 else v2 ≤ v1 + st)
        = (v2 ≤ v1 + st) := if_neg (not_lt.mpr hst.le)
    simp only [hcond] at h
    by_cases hdone : v2 ≤ v1 + st
    · rw [if_pos hdone] at h
      simp only [Option.some.injEq] at h
      subst h
      refine ⟨rfl, by simp [vjSets], fun hlt x hx => ?_⟩
      simp [vjSets] at hx
      subst hx
      exact hlt
    · rw [if_neg hdone] at h
      rcases Option.map_eq_some'.mp h with ⟨rest, hrest, hl⟩
      subst hl
      obtain ⟨ih1, ih2, ih3⟩ := ih (v1 + st) v2 rest hrest
      have hnext : v1 + st < v2 := not_le.mp hdone
      refine ⟨rfl, ?_, fun _ x hx => ?_⟩
      · rw [vjSets_cons]
        dsimp only
        rw [List.chain'_cons']
        refine ⟨fun y hy => ?_, ih2⟩
        rw [ih1] at hy
        simp only [Option.mem_def, Option.some.injEq] at hy
        subst hy
        linarith
      · rw [vjSets_cons] at hx
        dsimp only at hx
        rcases List.mem_cons.mp hx with hx | hx
        · subst hx
          linarith
        · exact ih3 hnext x hx

/-- Negative-step inner sweep: the set voltages start at the start value,
decrease monotonically, and (when started above the endpoint) stay
strictly above the endpoint. -/
theorem innerLoop_neg (so : ℤ) (st : ℚ) (hst : st < 0) :
    ∀ (f : ℕ) (v1 v2 : ℚ) (l : List IVPoint),
      ivCurveInnerLoop f so v1 v2 st = some l →
      (vjSets l).head? = some v1
      ∧ (vjSets l).Chain' (fun a b => b ≤ a)
      ∧ (v2 < v1 → ∀ x ∈ vjSets l, v2 < x) := by
  intro f
  induction f with
  | zero =>
    intro v1 v2 l h
    simp [ivCurveInnerLoop] at h
  | succ f ih =>
    intro v1 v2 l h
    rw [ivCurveInnerLoop] at h
    have hcond : (if st < 0 then v1 + st ≤ v2 else v2 ≤ v1 + st)
        = (v1 + st ≤ v2) := if_pos hst
    simp only [hcond] at h
    by_cases hdone : v1 + st ≤ v2
    · rw [if_pos hdone] at h
      simp only [Option.some.injEq] at h
      subst h
      refine ⟨rfl, by simp [vjSets], fun hlt x hx => ?_⟩
      simp [vjSets] at hx
      subst hx
      exact hlt
    · rw [if_neg hdone] at h
      rcases Option.map_eq_some'.mp h with ⟨rest, hrest, hl⟩
      subst hl
      obtain ⟨ih1, ih2, ih3⟩ := ih (v1 + st) v2 rest hrest
      have hnext : v2 < v1 + st := not_le.mp hdone
      refine ⟨rfl, ?_, fun _ x hx => ?_⟩
      · rw [vjSets_cons]
        dsimp only
        rw [List.chain'_cons']
        refine ⟨fun y hy => ?_, ih2⟩
        rw [ih1] at hy
        simp only [Option.mem_def, Option.some.injEq] at hy
        subst hy
        linarith
      · rw [vjSets_cons] at hx
        dsimp only at hx
        rcases List.mem_cons.mp hx with hx | hx
        · subst hx
          linarith
        · exact ih3 hnext x hx

/-- Numeral-friendly unfolding of the inner sweep loop. -/
theorem innerLoop_unfold (fuel : ℕ) (hf : 1 ≤ fuel) (so : ℤ) (v1 v2 st : ℚ) :
    ivCurveInnerLoop fuel so v1 v2 st =
      if (if st < 0 then v1 + st ≤ v2 else v2 ≤ v1 + st) then
        some [IVPoint.mk (CMD_OFFSET + SIS_VOLTAGE + so) (SIS_VOLTAGE + so)
          (SIS_CURRENT + so) v1]
      else
        (ivCurveInnerLoop (fuel - 1) so (v1 + st) v2 st).map
          (IVPoint.mk (CMD_OFFSET + SIS_VOLTAGE + so) (SIS_VOLTAGE + so)
            (SIS_CURRENT + so) v1 :: ·) := by
  obtain ⟨f, rfl⟩ : ∃ f, fuel = f + 1 := ⟨fuel - 1, by omega⟩
  rw [ivCurveInnerLoop]
  simp only [Nat.add_sub_cancel]

end CCA

/-- C9: for every IV sweep whose range crosses zero, any merged output's
set-voltage sequence is monotonically non-decreasing — the second
(positive-bound-toward-zero) sub-sweep's results are reversed before
concatenation in ivCurve — and its first and last elements are the two
sweep bounds. -/
theorem C9_iv_merge_monotone (band : ℕ) (port pol sis : ℤ)
    (VjLow VjHigh VjStep : ℚ) (fuel : ℕ) (l : List ℚ)
    (hlow : VjLow < 0) (hhigh : 0 < VjHigh) (hstep : VjStep ≠ 0)
    (h : CCA.ivCurve band port pol sis VjLow VjHigh VjStep fuel = some l) :
    l.Chain' (· ≤ ·) ∧ l.head? = some VjLow ∧ l.getLast? = some VjHigh := by
  have hst : 0 < |VjStep| := abs_pos.mpr hstep
  unfold CCA.ivCurve at h
  split at h
  · simp at h
  · split at h
    · simp at h
    · have hns : ¬ (VjHigh < VjLow) := not_lt.mpr (hlow.trans hhigh).le
      simp only [if_neg hns] at h
      have hr0 : ¬ (VjHigh - VjLow = 0) := by
        intro hc
        linarith
      simp only [if_neg hr0] at h
      split at h
      · simp at h
      · simp only [if_pos hlow, if_pos hhigh,
          if_pos (⟨hlow, hhigh⟩ : VjLow < 0 ∧ 0 < VjHigh)] at h
        rcases hr1 : CCA.ivCurveInnerLoop fuel
            (CCA.ivSubsysOffsetWithPort band port pol sis) VjLow 0 |VjStep|
          with _ | r1 <;> rw [hr1] at h
        · simp at h
        rcases hr2 : CCA.ivCurveInnerLoop fuel
            (CCA.ivSubsysOffsetWithPort band port pol sis) VjHigh 0 (-|VjStep|)
          with _ | r2 <;> rw [hr2] at h
        · simp at h
        simp only [Option.some.injEq] at h
        subst h
        obtain ⟨hd1, ch1, bd1⟩ := CCA.innerLoop_pos _ _ hst fuel VjLow 0 r1 hr1
        obtain ⟨hd2, ch2, bd2⟩ := CCA.innerLoop_neg _ _
          (neg_neg_of_pos hst) fuel VjHigh 0 r2 hr2
        have all1 : ∀ x ∈ CCA.vjSets r1, x < 0 := bd1 hlow
        have all2 : ∀ x ∈ CCA.vjSets r2, 0 < x := bd2 hhigh
        refine ⟨?_, ?_, ?_⟩
        · rw [List.chain'_append]
          refine ⟨ch1, List.chain'_reverse.mpr ch2, fun x hx y hy => ?_⟩
          have hx' : x ∈ CCA.vjSets r1 :=
            List.mem_of_getLast?_eq_some (Option.mem_def.mp hx)
          have hy' : y ∈ CCA.vjSets r2 := by
            rw [List.head?_reverse] at hy
            exact List.mem_of_getLast?_eq_some (Option.mem_def.mp hy)
          exact le_of_lt (lt_trans (all1 x hx') (all2 y hy'))
        · rw [List.head?_append, hd1]
          rfl
        · rw [List.getLast?_append, List.getLast?_reverse, hd2]
          rfl

/-- Concrete evaluation of a zero-crossing IV sweep: band 6, port 6, pol 0,
sis 1, from -1 V to +1 V in steps of 1/2 V. -/
theorem ivCurve_example_eval :
    CCA.ivCurve 6 6 0 1 (-1) 1 (1/2) 10 =
      some [-1, -(1/2), 1/2, 1] := by
  unfold CCA.ivCurve
  rw [show |(1 : ℚ)/2| = 1/2 from by norm_num]
  norm_num [CCA.innerLoop_unfold, CCA.hasSIS, CCA.hasSIS2, CCA.checkPolAndDevice,
    CCA.vjSets, CCA.ivSubsysOffsetWithPort, CCA.subsysOffset]

/-- Witness for C9 at the concrete sweep -1 V .. +1 V, step 1/2 V. -/
theorem C9_iv_merge_monotone_witness :
    [(-1 : ℚ), -(1/2), 1/2, 1].Chain' (· ≤ ·)
    ∧ [(-1 : ℚ), -(1/2), 1/2, 1].head? = some (-1)
    ∧ [(-1 : ℚ), -(1/2), 1/2, 1].getLast? = some 1 :=
  C9_iv_merge_monotone 6 6 0 1 (-1) 1 (1/2) 10 _
    (by norm_num) (by norm_num) (by norm_num) ivCurve_example_eval
